import Mathlib

/-
Verification of the playoff league statistics pipeline (src/web/main.py)
against its natural-language specification.

The pipeline is a linear ETL: Loader (download_nflverse_data) → Normalizer
(filter_and_prepare_data) → Scorer (calculate_fantasy_points) → Persister
(save_to_supabase) → Reporter.  Numeric statistics are modelled as rationals,
dataframes as lists of association-list rows, and the network as explicit
environments (per-batch outcomes, fetch/cache availability).
-/

namespace PlayoffLeague

/-- A normalized player record with all scoring-relevant numeric fields
present (post-Normalizer invariant) together with its category label.
Field names follow the source column names read by the scoring functions. -/
structure Record where
  position_group : String := ""
  passing_yards : ℚ := 0
  passing_tds : ℚ := 0
  passing_interceptions : ℚ := 0
  sacks_suffered : ℚ := 0
  sack_fumbles_lost : ℚ := 0
  passing_2pt_conversions : ℚ := 0
  rushing_yards : ℚ := 0
  rushing_tds : ℚ := 0
  rushing_fumbles_lost : ℚ := 0
  rushing_2pt_conversions : ℚ := 0
  receptions : ℚ := 0
  receiving_yards : ℚ := 0
  receiving_tds : ℚ := 0
  receiving_fumbles_lost : ℚ := 0
  receiving_2pt_conversions : ℚ := 0
  special_teams_tds : ℚ := 0
  punt_return_yards : ℚ := 0
  kickoff_return_yards : ℚ := 0
  def_tackles_solo : ℚ := 0
  def_tackle_assists : ℚ := 0
  def_tackles_for_loss : ℚ := 0
  def_fumbles_forced : ℚ := 0
  def_sacks : ℚ := 0
  def_interceptions : ℚ := 0
  def_pass_defended : ℚ := 0
  def_tds : ℚ := 0
  def_safeties : ℚ := 0
  fumble_recovery_opp : ℚ := 0
  fumble_recovery_tds : ℚ := 0

/-- Embedding of calculate_off_points (main.py lines 95-125): sequential
accumulation of the offensive scoring terms, in source order. -/
def calculate_off_points (row : Record) : ℚ :=
  let total : ℚ := 0
  let total := total + row.passing_yards / 25
  let total := total + row.passing_tds * 4
  let total := total - row.passing_interceptions * 2
  let total := total - row.sacks_suffered * 0.5
  let total := total - row.sack_fumbles_lost * 2
  let total := total + row.passing_2pt_conversions * 2
  let total := total + row.rushing_yards / 10
  let total := total + row.rushing_tds * 6
  let total := total - row.rushing_fumbles_lost * 2
  let total := total + row.rushing_2pt_conversions * 2
  let total := total + row.receptions * 0.5
  let total := total + row.receiving_yards / 10
  let total := total + row.receiving_tds * 6
  let total := total - row.receiving_fumbles_lost * 2
  let total := total + row.receiving_2pt_conversions * 2
  let total := total + row.special_teams_tds * 15
  let total := total + row.punt_return_yards / 20
  let total := total + row.kickoff_return_yards / 20
  total

/-- Embedding of calculate_def_points (main.py lines 128-144): sequential
accumulation of the defensive scoring terms, in source order. -/
def calculate_def_points (row : Record) : ℚ :=
  let total : ℚ := 0
  let total := total + row.def_tackles_solo * 1
  let total := total + row.def_tackle_assists * 0.5
  let total := total + row.def_tackles_for_loss * 2
  let total := total + row.def_fumbles_forced * 5
  let total := total + row.def_sacks * 4
  let total := total + row.def_interceptions * 7
  let total := total + row.def_pass_defended * 3
  let total := total + row.def_tds * 6
  let total := total + row.def_safeties * 2
  let total := total + row.fumble_recovery_opp * 3
  let total := total + row.fumble_recovery_tds * 6
  total

/-- The four offensive category codes checked on main.py line 149. -/
def offensiveCodes : List String := ["QB", "RB", "WR", "TE"]

/-- The three defensive category codes checked on main.py line 151. -/
def defensiveCodes : List String := ["DL", "LB", "DB"]

/-- Embedding of calculate_fantasy_points (main.py lines 147-154):
dispatch on the category label. -/
def calculate_fantasy_points (row : Record) : ℚ :=
  if row.position_group ∈ offensiveCodes then
    calculate_off_points row
  else if row.position_group ∈ defensiveCodes then
    calculate_def_points row
  else
    0

/-- The offensive scoring formula exactly as the specification words it,
terms in the order the spec lists them. -/
def specOffFormula (row : Record) : ℚ :=
  row.passing_yards / 25 + row.passing_tds * 4 - row.passing_interceptions * 2
    - row.sacks_suffered * 0.5 - row.sack_fumbles_lost * 2
    + row.passing_2pt_conversions * 2
    + row.rushing_yards / 10 + row.rushing_tds * 6
    - row.rushing_fumbles_lost * 2 + row.rushing_2pt_conversions * 2
    + row.receptions * 0.5 + row.receiving_yards / 10 + row.receiving_tds * 6
    - row.receiving_fumbles_lost * 2 + row.receiving_2pt_conversions * 2
    + row.special_teams_tds * 15 + row.punt_return_yards / 20
    + row.kickoff_return_yards / 20

/-- The defensive scoring formula exactly as the specification words it,
terms in the order the spec lists them. -/
def specDefFormula (row : Record) : ℚ :=
  row.def_tackles_solo * 1 + row.def_tackle_assists * 0.5
    + row.def_tackles_for_loss * 2 + row.def_fumbles_forced * 5
    + row.def_sacks * 4 + row.def_interceptions * 7
    + row.def_pass_defended * 3 + row.def_tds * 6 + row.def_safeties * 2
    + row.fumble_recovery_opp * 3 + row.fumble_recovery_tds * 6

/-- The example record of the spec: passing_yards=250, passing_tds=2,
passing_interceptions=1, all other statistics zero, offensive category. -/
def qbExample : Record :=
  { position_group := "QB", passing_yards := 250, passing_tds := 2,
    passing_interceptions := 1 }

/-- The example record of the spec: def_sacks=2, def_interceptions=1,
all other statistics zero, defensive category. -/
def dlExample : Record :=
  { position_group := "DL", def_sacks := 2, def_interceptions := 1 }

/-- A special-teams record: the eighth category code, all statistics zero. -/
def stExample : Record := { position_group := "ST" }

/-- C1: for every normalized record whose category label is one of the four
offensive codes, the Scorer returns exactly the offensive formula of the
spec, terms accumulated in that order. -/
theorem scorer_offensive_matches_spec (row : Record)
    (h : row.position_group ∈ offensiveCodes) :
    calculate_fantasy_points row = specOffFormula row := by
  simp only [calculate_fantasy_points, if_pos h]
  simp only [calculate_off_points, specOffFormula]
  ring

/-- C1 witness: the spec example record is offensive and scores 16. -/
theorem scorer_offensive_matches_spec_witness :
    qbExample.position_group ∈ offensiveCodes ∧
      calculate_fantasy_points qbExample = specOffFormula qbExample ∧
      calculate_fantasy_points qbExample = 16 := by
  refine ⟨by decide, scorer_offensive_matches_spec qbExample (by decide), ?_⟩
  norm_num [calculate_fantasy_points, calculate_off_points, qbExample,
    offensiveCodes]

/-- C2: for every normalized record whose category label is one of the three
defensive codes, the Scorer returns exactly the defensive formula of the
spec, terms accumulated in that order. -/
theorem scorer_defensive_matches_spec (row : Record)
    (h1 : row.position_group ∉ offensiveCodes)
    (h2 : row.position_group ∈ defensiveCodes) :
    calculate_fantasy_points row = specDefFormula row := by
  simp only [calculate_fantasy_points, if_neg h1, if_pos h2]
  simp only [calculate_def_points, specDefFormula]
  ring

/-- C2 witness: the spec example record is defensive and scores 15. -/
theorem scorer_defensive_matches_spec_witness :
    dlExample.position_group ∉ offensiveCodes ∧
      dlExample.position_group ∈ defensiveCodes ∧
      calculate_fantasy_points dlExample = specDefFormula dlExample ∧
      calculate_fantasy_points dlExample = 15 := by
  have h := scorer_defensive_matches_spec dlExample (by decide) (by decide)
  refine ⟨by decide, by decide, h, ?_⟩
  rw [h]
  norm_num [specDefFormula, dlExample]

/-- C9: for every normalized record whose category label is neither an
offensive nor a defensive code (including the eighth code ST), the Scorer
returns exactly 0. -/
theorem scorer_other_category_zero (row : Record)
    (h1 : row.position_group ∉ offensiveCodes)
    (h2 : row.position_group ∉ defensiveCodes) :
    calculate_fantasy_points row = 0 := by
  simp only [calculate_fantasy_points, if_neg h1, if_neg h2]

/-- C9 witness: a record labelled ST scores 0. -/
theorem scorer_other_category_zero_witness :
    stExample.position_group ∉ offensiveCodes ∧
      stExample.position_group ∉ defensiveCodes ∧
      calculate_fantasy_points stExample = 0 :=
  ⟨by decide, by decide,
    scorer_other_category_zero stExample (by decide) (by decide)⟩

/-! ### Persister (save_to_supabase, main.py lines 200-247) -/

/-- Insert batch size of save_to_supabase (main.py line 230). -/
def batch_size : Nat := 500

/-- Chunking loop of save_to_supabase (main.py lines 233-234): the slices
records[i : i + batch_size] for i = 0, batch_size, 2*batch_size, ...
Structural recursion on a fuel bounded by the list length so the function
evaluates by rfl; the fuel is erased by chunkGo_fuel below. -/
def chunkGo {α : Type} : Nat → List α → List (List α)
  | _, [] => []
  | 0, _ :: _ => []
  | fuel + 1, a :: rest =>
      (a :: rest).take batch_size :: chunkGo fuel ((a :: rest).drop batch_size)

/-- The batches the insert loop of save_to_supabase iterates over, in order. -/
def chunkBatches {α : Type} (records : List α) : List (List α) :=
  chunkGo records.length records

theorem chunkGo_fuel {α : Type} :
    ∀ (f1 f2 : Nat) (l : List α), l.length ≤ f1 → l.length ≤ f2 →
      chunkGo f1 l = chunkGo f2 l := by
  intro f1
  induction f1 with
  | zero =>
    intro f2 l h1 _
    cases l with
    | nil => cases f2 <;> rfl
    | cons a rest => simp at h1
  | succ f ih =>
    intro f2 l h1 h2
    cases l with
    | nil => cases f2 <;> rfl
    | cons a rest =>
      cases f2 with
      | zero => simp at h2
      | succ f2m =>
        simp only [chunkGo]
        congr 1
        apply ih
        · rw [List.length_drop]
          simp only [List.length_cons, batch_size] at h1 ⊢
          omega
        · rw [List.length_drop]
          simp only [List.length_cons, batch_size] at h2 ⊢
          omega

theorem chunkBatches_nil {α : Type} : chunkBatches ([] : List α) = [] := rfl

theorem chunkBatches_cons {α : Type} (a : α) (rest : List α) :
    chunkBatches (a :: rest) =
      (a :: rest).take batch_size :: chunkBatches ((a :: rest).drop batch_size) := by
  show chunkGo (a :: rest).length (a :: rest) = _
  simp only [List.length_cons, chunkGo]
  congr 1
  apply chunkGo_fuel
  · rw [List.length_drop]
    simp only [List.length_cons, batch_size]
    omega
  · exact le_rfl

theorem chunkBatches_eq_nil_iff {α : Type} (l : List α) :
    chunkBatches l = [] ↔ l = [] := by
  cases l with
  | nil => simp [chunkBatches_nil]
  | cons a rest => simp [chunkBatches_cons]

theorem chunkBatches_flatten_aux {α : Type} :
    ∀ (bound : Nat) (l : List α), l.length ≤ bound →
      (chunkBatches l).flatten = l := by
  intro bound
  induction bound with
  | zero =>
    intro l h
    cases l with
    | nil => rfl
    | cons a rest => simp at h
  | succ b ih =>
    intro l h
    cases l with
    | nil => rfl
    | cons a rest =>
      rw [chunkBatches_cons, List.flatten_cons, ih ((a :: rest).drop batch_size) ?_]
      · exact List.take_append_drop batch_size (a :: rest)
      · rw [List.length_drop]
        simp only [List.length_cons] at h ⊢
        have : 1 ≤ batch_size := by decide
        omega

/-- The batches concatenate back, in order, to the original record list. -/
theorem chunkBatches_flatten {α : Type} (l : List α) : (chunkBatches l).flatten = l :=
  chunkBatches_flatten_aux l.length l le_rfl

theorem chunkBatches_length_aux {α : Type} :
    ∀ (bound : Nat) (l : List α), l.length ≤ bound →
      (chunkBatches l).length = (l.length + 499) / 500 := by
  intro bound
  induction bound with
  | zero =>
    intro l h
    cases l with
    | nil => simp [chunkBatches_nil]
    | cons a rest => simp at h
  | succ b ih =>
    intro l h
    cases l with
    | nil => simp [chunkBatches_nil]
    | cons a rest =>
      rw [chunkBatches_cons, List.length_cons,
        ih ((a :: rest).drop batch_size) ?_]
      · rw [List.length_drop]
        simp only [List.length_cons, batch_size]
        omega
      · rw [List.length_drop]
        simp only [List.length_cons] at h ⊢
        have : 1 ≤ batch_size := by decide
        omega

/-- The loop issues exactly ceil(N / 500) batches. -/
theorem chunkBatches_length {α : Type} (l : List α) :
    (chunkBatches l).length = (l.length + 499) / 500 :=
  chunkBatches_length_aux l.length l le_rfl

theorem chunkBatches_dropLast_aux {α : Type} :
    ∀ (bound : Nat) (l : List α), l.length ≤ bound →
      ∀ b ∈ (chunkBatches l).dropLast, b.length = 500 := by
  intro bound
  induction bound with
  | zero =>
    intro l h
    cases l with
    | nil => simp [chunkBatches_nil]
    | cons a rest => simp at h
  | succ bd ih =>
    intro l h
    cases l with
    | nil => simp [chunkBatches_nil]
    | cons a rest =>
      rw [chunkBatches_cons]
      cases hr : chunkBatches ((a :: rest).drop batch_size) with
      | nil => simp
      | cons c cs =>
        intro b hb
        have hdrop : (a :: rest).drop batch_size ≠ [] := by
          intro hcon
          rw [hcon, chunkBatches_nil] at hr
          exact List.noConfusion hr
        have hlen : 500 < (a :: rest).length := by
          by_contra hle
          exact hdrop (List.drop_eq_nil_of_le (by simpa [batch_size] using hle))
        rw [List.dropLast_cons₂] at hb
        rcases List.mem_cons.mp hb with hbt | hbr
        · subst hbt
          rw [List.length_take]
          simp only [batch_size]
          omega
        · have hrec := ih ((a :: rest).drop batch_size) ?_ b ?_
          · exact hrec
          · rw [List.length_drop]
            simp only [List.length_cons] at h ⊢
            have : 1 ≤ batch_size := by decide
            omega
          · rw [hr]
            exact hbr

/-- Every batch other than the last holds exactly 500 records. -/
theorem chunkBatches_dropLast {α : Type} (l : List α) :
    ∀ b ∈ (chunkBatches l).dropLast, b.length = 500 :=
  chunkBatches_dropLast_aux l.length l le_rfl

theorem chunkBatches_getLast_aux {α : Type} :
    ∀ (bound : Nat) (l : List α), l.length ≤ bound →
      ∀ b, (chunkBatches l).getLast? = some b → l.length % 500 ≠ 0 →
        b.length = l.length % 500 := by
  intro bound
  induction bound with
  | zero =>
    intro l h b hb _
    cases l with
    | nil => simp [chunkBatches_nil] at hb
    | cons a rest => simp at h
  | succ bd ih =>
    intro l h b hb hmod
    cases l with
    | nil => simp [chunkBatches_nil] at hb
    | cons a rest =>
      rw [chunkBatches_cons] at hb
      cases hr : chunkBatches ((a :: rest).drop batch_size) with
      | nil =>
        rw [hr] at hb
        simp only [List.getLast?_singleton, Option.some_inj] at hb
        subst hb
        have hdrop : (a :: rest).drop batch_size = [] :=
          (chunkBatches_eq_nil_iff _).mp hr
        have hle : (a :: rest).length ≤ 500 := by
          have := List.drop_eq_nil_iff.mp hdrop
          simpa [batch_size] using this
        rw [List.length_take]
        simp only [batch_size]
        simp only [List.length_cons] at hle hmod ⊢
        omega
      | cons c cs =>
        rw [hr, List.getLast?_cons_cons] at hb
        have hdrop : (a :: rest).drop batch_size ≠ [] := by
          intro hcon
          rw [hcon, chunkBatches_nil] at hr
          exact List.noConfusion hr
        have hlen : 500 < (a :: rest).length := by
          by_contra hle
          exact hdrop (List.drop_eq_nil_of_le (by simpa [batch_size] using hle))
        have hrec := ih ((a :: rest).drop batch_size) ?_ b ?_ ?_
        · rw [List.length_drop] at hrec
          simp only [List.length_cons, batch_size] at *
          omega
        · rw [List.length_drop]
          simp only [List.length_cons] at h ⊢
          have : 1 ≤ batch_size := by decide
          omega
        · rw [hr]
          exact hb
        · rw [List.length_drop]
          simp only [List.length_cons, batch_size] at *
          omega

/-- When N is not a multiple of 500, the last batch holds N mod 500 records. -/
theorem chunkBatches_getLast {α : Type} (l : List α) :
    ∀ b, (chunkBatches l).getLast? = some b → l.length % 500 ≠ 0 →
      b.length = l.length % 500 :=
  chunkBatches_getLast_aux l.length l le_rfl

/-- C4: the Persister partitions the N records, in order, into exactly
ceil(N/500) insert batches; every batch has exactly 500 records except
possibly the last, which has N mod 500 records when N is not a multiple
of 500. -/
theorem persister_batching {α : Type} (records : List α) :
    (chunkBatches records).flatten = records ∧
      (chunkBatches records).length = (records.length + 499) / 500 ∧
      (∀ b ∈ (chunkBatches records).dropLast, b.length = 500) ∧
      (∀ b, (chunkBatches records).getLast? = some b →
        records.length % 500 ≠ 0 → b.length = records.length % 500) :=
  ⟨chunkBatches_flatten records, chunkBatches_length records,
    chunkBatches_dropLast records, chunkBatches_getLast records⟩

/-- C4 witness: three records form a single batch of size 3 = 3 mod 500. -/
theorem persister_batching_witness :
    (chunkBatches ([1, 2, 3] : List Nat)).flatten = [1, 2, 3] ∧
      (chunkBatches ([1, 2, 3] : List Nat)).length = (3 + 499) / 500 ∧
      (chunkBatches ([1, 2, 3] : List Nat)).getLast? = some [1, 2, 3] ∧
      ([1, 2, 3] : List Nat).length = 3 % 500 :=
  ⟨(persister_batching [1, 2, 3]).1, (persister_batching [1, 2, 3]).2.1,
    by decide,
    (persister_batching [1, 2, 3]).2.2.2 [1, 2, 3] (by decide) (by decide)⟩

/-- Outcome of a single batch POST as observed by the code on main.py lines
237-247: either a response with some status code, or a transport error
raised by the request call. -/
inductive BatchOutcome where
  | status : Nat → BatchOutcome
  | transportError : BatchOutcome

/-- main.py line 239: a batch insert succeeded iff the response status is
200 or 201; a transport error is never a success. -/
def BatchOutcome.isSuccess : BatchOutcome → Bool
  | .status c => c == 200 || c == 201
  | .transportError => false

/-- Observable result of the insert loop of save_to_supabase: the rows
appended to the store, the number of batches attempted (POST requests
issued), and whether the loop raised. -/
structure InsertRun (α : Type) where
  written : List α
  attempted : Nat
  raised : Bool

/-- The insert loop of save_to_supabase (main.py lines 233-247), one batch
at a time: a successful batch is appended to the store and the loop
continues; any failed batch raises immediately, is not written, and stops
the loop.  idx is the batch index fed to the outcome environment. -/
def runInsertsAux {α : Type} (outcome : Nat → BatchOutcome) :
    List (List α) → Nat → InsertRun α
  | [], _ => ⟨[], 0, false⟩
  | b :: rest, idx =>
    if (outcome idx).isSuccess then
      let r := runInsertsAux outcome rest (idx + 1)
      ⟨b ++ r.written, r.attempted + 1, r.raised⟩
    else
      ⟨[], 1, true⟩

/-- Embedding of the insert phase of save_to_supabase (main.py lines
229-247): chunk the records into batches of batch_size and POST them in
order.  The clear step (lines 218-227) is non-fatal and leaves no state
observed here. -/
def save_to_supabase {α : Type} (outcome : Nat → BatchOutcome)
    (records : List α) : InsertRun α :=
  runInsertsAux outcome (chunkBatches records) 0

theorem runInsertsAux_fail {α : Type} (outcome : Nat → BatchOutcome) :
    ∀ (batches : List (List α)) (idx k : Nat),
      (∀ j, j < k → (outcome (idx + j)).isSuccess = true) →
      (outcome (idx + k)).isSuccess = false →
      k < batches.length →
      runInsertsAux outcome batches idx =
        ⟨(batches.take k).flatten, k + 1, true⟩ := by
  intro batches
  induction batches with
  | nil =>
    intro idx k h1 h2 hk
    simp at hk
  | cons b rest ih =>
    intro idx k h1 h2 hk
    cases k with
    | zero =>
      have hfail : (outcome idx).isSuccess = false := by simpa using h2
      simp [runInsertsAux, hfail]
    | succ km =>
      have hb : (outcome idx).isSuccess = true := by
        have := h1 0 (Nat.succ_pos km)
        simpa using this
      simp only [runInsertsAux, hb, if_true]
      rw [ih (idx + 1) km ?_ ?_ ?_]
      · simp [List.take_succ_cons]
      · intro j hj
        have := h1 (j + 1) (Nat.succ_lt_succ hj)
        rwa [show idx + (j + 1) = idx + 1 + j by omega] at this
      · rwa [show idx + 1 + km = idx + (km + 1) by omega]
      · simpa using Nat.lt_of_succ_lt_succ (Nat.succ_lt_succ hk)

/-- C3: if the insert of the batch at index k fails (non-success response
status or transport error) while every earlier batch succeeded, the
Persister aborts the run at that point: exactly the batches 0..k-1 remain
written to the store, batch k is attempted but not written (no rollback of
any kind), and batches k+1 onward are never attempted. -/
theorem persister_abort_on_failed_batch {α : Type}
    (outcome : Nat → BatchOutcome) (records : List α) (k : Nat)
    (hok : ∀ j, j < k → (outcome j).isSuccess = true)
    (hfail : (outcome k).isSuccess = false)
    (hk : k < (chunkBatches records).length) :
    save_to_supabase outcome records =
      ⟨((chunkBatches records).take k).flatten, k + 1, true⟩ := by
  apply runInsertsAux_fail outcome (chunkBatches records) 0 k
  · intro j hj
    simpa using hok j hj
  · simpa using hfail
  · exact hk

/-- Outcome environment of the C3 witness: batch 0 gets status 201, every
later batch gets status 404. -/
def exOutcome : Nat → BatchOutcome :=
  fun n => if n = 0 then .status 201 else .status 404

set_option maxRecDepth 8192 in
/-- C3 witness: on 1001 records (three batches) with a failure at batch
index 1, exactly the first batch is written and two batches are attempted. -/
theorem persister_abort_on_failed_batch_witness :
    save_to_supabase exOutcome (List.replicate 1001 (0 : Nat)) =
      ⟨((chunkBatches (List.replicate 1001 (0 : Nat))).take 1).flatten, 2, true⟩ :=
  persister_abort_on_failed_batch exOutcome (List.replicate 1001 0) 1
    (by decide) (by decide) (by decide)

/-! ### Data Loader (download_nflverse_data, main.py lines 7-51) -/

/-- A cell value of a tabular dataset: a string, a (rational) number, or a
missing value (NaN), as produced by the CSV parse. -/
inductive Val where
  | vstr : String → Val
  | vnum : ℚ → Val
  | vnan : Val
deriving DecidableEq

/-- A raw or parsed tabular dataset: its column names and its rows, each
row an association list from column name to cell value. -/
structure DataFrame where
  cols : List String
  rows : List (List (String × Val))

/-- main.py line 18: the name of the local cache file the Loader writes on
a successful fetch and reads on fallback; the category-of-period part is
the string literal post — only the season is interpolated. -/
def local_file_name (season : Nat) (season_type : String) : String :=
  "stats_player_post_" ++ toString season ++ ".csv"

/-- ASCII lower-casing of season_type.lower(), character by character. -/
def strLower (s : String) : String :=
  String.mk (s.data.map Char.toLower)

/-- main.py lines 21-22: the name of the remote file fetched from the
release URL, built from season_type.lower() and the season. -/
def remote_file_name (season : Nat) (season_type : String) : String :=
  "stats_player_" ++ strLower season_type ++ "_" ++ toString season ++ ".csv"

/-- Environment of one Loader run: the remote fetch either succeeds with a
parsed dataset or fails (network error, non-success status, timeout), and
the local cache file either exists with a parsed dataset or not. -/
structure LoaderEnv where
  fetch : Option DataFrame
  cache : Option DataFrame

/-- The Loader's fatal error, main.py line 51: FileNotFoundError when the
fetch failed and no local cache file exists. -/
inductive LoadError where
  | fileNotFound

/-- Embedding of download_nflverse_data (main.py lines 26-51): return the
remote dataset when the fetch succeeds, after overwriting the cache file
with it; otherwise fall back to the cache file; otherwise raise
FileNotFoundError.  The second component is the cache file after the run. -/
def download_nflverse_data (env : LoaderEnv) :
    Except LoadError DataFrame × Option DataFrame :=
  match env.fetch with
  | some d => (Except.ok d, some d)
  | none =>
    match env.cache with
    | some c => (Except.ok c, some c)
    | none => (Except.error LoadError.fileNotFound, none)

/-- C8: the Loader returns the remote dataset when the fetch succeeds, the
cached dataset when the fetch fails and a cache file exists, and raises the
fatal not-found error when the fetch fails and no cache file exists. -/
theorem loader_fallback (env : LoaderEnv) :
    (∀ d, env.fetch = some d →
      (download_nflverse_data env).1 = Except.ok d) ∧
      (env.fetch = none → ∀ c, env.cache = some c →
        (download_nflverse_data env).1 = Except.ok c) ∧
      (env.fetch = none → env.cache = none →
        (download_nflverse_data env).1 = Except.error LoadError.fileNotFound) := by
  refine ⟨?_, ?_, ?_⟩
  · intro d hd
    simp [download_nflverse_data, hd]
  · intro hf c hc
    simp [download_nflverse_data, hf, hc]
  · intro hf hc
    simp [download_nflverse_data, hf, hc]

/-- The dataset of the C8 witness standing for the remote file content. -/
def exRemote : DataFrame := ⟨["remote"], []⟩

/-- The dataset of the C8 witness standing for the cache file content. -/
def exCache : DataFrame := ⟨["cache"], []⟩

/-- C8 witness: the three loader cases at concrete environments. -/
theorem loader_fallback_witness :
    (download_nflverse_data ⟨some exRemote, some exCache⟩).1 =
        Except.ok exRemote ∧
      (download_nflverse_data ⟨none, some exCache⟩).1 = Except.ok exCache ∧
      (download_nflverse_data ⟨none, none⟩).1 =
        Except.error LoadError.fileNotFound :=
  ⟨(loader_fallback ⟨some exRemote, some exCache⟩).1 exRemote rfl,
    (loader_fallback ⟨none, some exCache⟩).2.1 rfl exCache rfl,
    (loader_fallback ⟨none, none⟩).2.2 rfl rfl⟩

/-- C6 counterexample: for season 2024 with the regular-season flag REG,
the local cache file name the Loader writes and reads is not the name of
the remote file it fetches — the cache name hardcodes post — so the cache
name is not determined by the category-of-period flag. -/
theorem loader_cache_name_counterexample :
    local_file_name 2024 "REG" ≠ remote_file_name 2024 "REG" ∧
      local_file_name 2024 "REG" = local_file_name 2024 "POST" := by
  refine ⟨?_, rfl⟩
  decide

/-- C6 amended: the local cache file name is deterministic in the year
alone — its category-of-period part is the fixed literal post, so it does
not depend on the flag — and it coincides with the name of the remote file
exactly in runs whose flag is POST. -/
theorem loader_cache_name_amended (season : Nat) (t1 t2 : String) :
    local_file_name season t1 = local_file_name season t2 ∧
      local_file_name season t1 = remote_file_name season "POST" := by
  refine ⟨rfl, ?_⟩
  show "stats_player_post_" ++ toString season ++ ".csv" =
    "stats_player_" ++ strLower "POST" ++ "_" ++ toString season ++ ".csv"
  rw [show strLower "POST" = "post" from rfl]
  rw [show (("stats_player_" ++ "post") ++ "_" : String) = "stats_player_post_"
    from rfl]

/-! ### main (main.py lines 280-333) -/

/-- An exception observed by the caller of main: a stage exception carried
by its message, or the TypeError produced by applying raise to a value
that is not an exception. -/
inductive PyExc where
  | original : String → PyExc
  | typeError : PyExc

/-- A Python value given to a raise statement: a proper exception, or a
plain string. -/
inductive PyVal where
  | str : String → PyVal
  | exc : String → PyVal

/-- Dynamic semantics of the raise statement: raising an exception value
propagates it; raising anything else (such as a string) raises TypeError. -/
def raiseValue : PyVal → PyExc
  | .exc e => PyExc.original e
  | .str _ => PyExc.typeError

/-- The banner string built on main.py line 327: a newline followed by 80
equals signs; this is the operand handed to raise. -/
def banner : String := "\n" ++ String.join (List.replicate 80 "=")

/-- The try body of main (lines 283-323): the six stages run sequentially;
the environment says whether some stage raises and with what message. -/
def runStages (stageError : Option String) : Except String Unit :=
  match stageError with
  | none => Except.ok ()
  | some e => Except.error e

/-- Embedding of main (main.py lines 280-333): on any stage exception the
first except clause (lines 325-327) runs and executes raise applied to the
banner string, so a TypeError propagates to the caller; the second except
clause (lines 331-333) never runs, since a handler's own exception is not
caught by a sibling clause of the same try. -/
def main (stageError : Option String) : Except PyExc Unit :=
  match runStages stageError with
  | Except.ok () => Except.ok ()
  | Except.error _ => Except.error (raiseValue (PyVal.str banner))

/-- C10: whenever a pipeline stage raises an exception e, main does not
return normally, and the exception the caller observes is the TypeError
from applying raise to a string on line 327 — not e itself. -/
theorem main_masks_stage_error (e : String) :
    main (some e) = Except.error PyExc.typeError ∧
      main (some e) ≠ Except.ok () ∧
      PyExc.typeError ≠ PyExc.original e :=
  ⟨rfl, fun hcon => Except.noConfusion hcon,
    fun hcon => PyExc.noConfusion hcon⟩

/-! ### Normalizer (filter_and_prepare_data, main.py lines 54-92) -/

/-- Lookup of a cell by column name (row[col]). -/
def getVal (r : List (String × Val)) (c : String) : Option Val :=
  (r.find? (fun p => p.1 == c)).map (fun p => p.2)

/-- The fixed projection list needed_cols of main.py lines 64-76. -/
def needed_cols : List String :=
  ["player_name", "player_display_name", "position", "position_group",
   "recent_team",
   "passing_yards", "passing_tds", "passing_interceptions", "sacks_suffered",
   "sack_fumbles_lost", "passing_2pt_conversions",
   "rushing_yards", "rushing_tds", "rushing_fumbles_lost",
   "rushing_2pt_conversions",
   "receptions", "receiving_yards", "receiving_tds", "receiving_fumbles_lost",
   "receiving_2pt_conversions", "special_teams_tds",
   "def_tackles_solo", "def_tackle_assists", "def_tackles_for_loss",
   "def_fumbles_forced",
   "def_sacks", "def_interceptions", "def_pass_defended", "def_tds",
   "def_fumbles",
   "def_safeties", "fumble_recovery_opp", "fumble_recovery_tds",
   "punt_return_yards", "kickoff_return_yards",
   "fg_made", "fg_att", "fg_made_distance", "pat_made", "pat_att"]

/-- main.py line 79: the listed columns that exist in the input frame. -/
def available_cols (df : DataFrame) : List String :=
  needed_cols.filter (fun c => df.cols.contains c)

/-- Row part of df[available_cols]: keep exactly the listed columns. -/
def projectRow (cols : List String) (r : List (String × Val)) :
    List (String × Val) :=
  cols.map (fun c => (c, (getVal r c).getD Val.vnan))

/-- main.py lines 78-80: the projection step df[available_cols]; columns
absent from the input are silently omitted, never an error. -/
def project (df : DataFrame) : DataFrame :=
  { cols := available_cols df
    rows := df.rows.map (projectRow (available_cols df)) }

/-- The eight category codes of main.py line 83. -/
def position_groups : List String :=
  ["QB", "RB", "WR", "TE", "DL", "LB", "DB", "ST"]

/-- main.py line 84: df_filtered['position_group'].isin(position_groups);
a missing or non-string label never matches. -/
def rowInGroups (r : List (String × Val)) : Bool :=
  match getVal r "position_group" with
  | some (Val.vstr s) => position_groups.contains s
  | _ => false

/-- A cell counts toward numeric dtype when it is a number or NaN. -/
def isNumVal : Val → Bool
  | .vnum _ => true
  | .vnan => true
  | .vstr _ => false

/-- main.py line 87: a column is of numeric dtype (float64/int64) when no
cell in it is a string — a CSV column parses to a numeric dtype exactly
when every entry is a number or missing.  The dtype is fixed when the whole
file is parsed, over all rows, and row filtering never re-infers it, so
numeric-ness is always judged on the pre-filter frame. -/
def isNumericCol (df : DataFrame) (c : String) : Bool :=
  df.rows.all (fun r =>
    match getVal r c with
    | some v => isNumVal v
    | none => true)

/-- The columns selected by select_dtypes(include=['float64', 'int64']). -/
def numericCols (df : DataFrame) : List String :=
  df.cols.filter (fun c => isNumericCol df c)

/-- The per-cell action of fillna(0): a NaN in a numeric column becomes 0,
every other cell is unchanged. -/
def fillCell (ncols : List String) (p : String × Val) : String × Val :=
  if ncols.contains p.1 then
    if p.2 = Val.vnan then (p.1, Val.vnum 0) else p
  else p

/-- main.py line 88: fillna(0) on the numeric columns of one row. -/
def fillnaRow (ncols : List String) (r : List (String × Val)) :
    List (String × Val) :=
  r.map (fillCell ncols)

/-- The frame after the position-group row filter of main.py line 84. -/
def filteredFrame (df : DataFrame) : DataFrame :=
  ⟨(project df).cols, (project df).rows.filter rowInGroups⟩

/-- Embedding of filter_and_prepare_data (main.py lines 54-92): project to
the listed columns, keep the rows whose position_group is one of the eight
codes, then fill NaN with 0 in the columns of numeric dtype.  The dtype set
select_dtypes reads on line 87 was fixed at parse time over every input
row, so it is computed on the projected pre-filter frame: a column holding
a string only in a row that the position filter drops is object dtype and
is NOT filled.  Reading the position_group column of a frame that lacks it
raises a KeyError. -/
def filter_and_prepare_data (df : DataFrame) : Except String DataFrame :=
  if (project df).cols.contains "position_group" then
    Except.ok ⟨(filteredFrame df).cols,
      (filteredFrame df).rows.map (fillnaRow (numericCols (project df)))⟩
  else
    Except.error "KeyError: position_group"

/-- C7: the projection step of the Normalizer is a total function — it
succeeds on every input frame, whichever listed columns are absent — its
output columns are exactly the listed columns present in the input, and a
listed column absent from the input is silently omitted from the output. -/
theorem normalizer_projection_total (df : DataFrame) :
    (project df).cols = needed_cols.filter (fun c => df.cols.contains c) ∧
      (∀ c, c ∈ needed_cols → c ∉ df.cols → c ∉ (project df).cols) ∧
      (∀ c, c ∈ (project df).cols → c ∈ needed_cols ∧ c ∈ df.cols) := by
  refine ⟨rfl, ?_, ?_⟩
  · intro c _ hcd hmem
    have hm := List.mem_filter.mp hmem
    exact hcd (by simpa using hm.2)
  · intro c hmem
    have hm := List.mem_filter.mp hmem
    exact ⟨hm.1, by simpa using hm.2⟩

/-- Input frame of the C7 and C5 witnesses: two listed columns, one
unlisted column, one offensive row with a missing stat, and one row whose
label is outside the eight codes. -/
def exDf : DataFrame :=
  ⟨["position_group", "passing_yards", "mystery"],
   [[("position_group", Val.vstr "QB"), ("passing_yards", Val.vnan),
     ("mystery", Val.vstr "x")],
    [("position_group", Val.vstr "KICKER"), ("passing_yards", Val.vnum 7),
     ("mystery", Val.vstr "y")]]⟩

/-- C7 witness: the projection of exDf keeps the two listed columns and
silently omits the absent listed column rushing_yards. -/
theorem normalizer_projection_total_witness :
    (project exDf).cols = ["position_group", "passing_yards"] ∧
      "rushing_yards" ∈ needed_cols ∧ "rushing_yards" ∉ exDf.cols ∧
      "rushing_yards" ∉ (project exDf).cols :=
  ⟨by decide, by decide, by decide,
    (normalizer_projection_total exDf).2.1 "rushing_yards" (by decide)
      (by decide)⟩

/-- The per-cell fix applied by fillna on a looked-up value. -/
def fillFix (ncols : List String) (c : String) (v : Val) : Val :=
  if ncols.contains c then (if v = Val.vnan then Val.vnum 0 else v) else v

theorem fillCell_fst (ncols : List String) (q : String × Val) :
    (fillCell ncols q).1 = q.1 := by
  unfold fillCell
  split_ifs <;> rfl

theorem fillCell_snd (ncols : List String) (q : String × Val) :
    (fillCell ncols q).2 = fillFix ncols q.1 q.2 := by
  unfold fillCell fillFix
  split_ifs <;> rfl

theorem getVal_cons_eq {q : String × Val} {rest : List (String × Val)}
    {c : String} (hq : (q.1 == c) = true) :
    getVal (q :: rest) c = some q.2 := by
  unfold getVal
  rw [List.find?_cons_of_pos rest
    (show (fun p : String × Val => p.1 == c) q = true from hq)]
  rfl

theorem getVal_cons_ne {q : String × Val} {rest : List (String × Val)}
    {c : String} (hq : (q.1 == c) = false) :
    getVal (q :: rest) c = getVal rest c := by
  unfold getVal
  rw [List.find?_cons_of_neg]
  simp [hq]

theorem getVal_fillnaRow (ncols : List String) (r : List (String × Val))
    (c : String) :
    getVal (fillnaRow ncols r) c = (getVal r c).map (fillFix ncols c) := by
  induction r with
  | nil => rfl
  | cons q rest ih =>
    show getVal (fillCell ncols q :: fillnaRow ncols rest) c = _
    by_cases hk : (q.1 == c) = true
    · have hq1 : ((fillCell ncols q).1 == c) = true := by
        rw [fillCell_fst]
        exact hk
      have hqc : q.1 = c := by simpa using hk
      rw [getVal_cons_eq hq1, getVal_cons_eq hk, fillCell_snd, hqc]
      rfl
    · have hkf : (q.1 == c) = false := by
        cases hval : (q.1 == c)
        · rfl
        · exact absurd hval hk
      have hq1 : ((fillCell ncols q).1 == c) = false := by
        rw [fillCell_fst]
        exact hkf
      rw [getVal_cons_ne hq1, getVal_cons_ne hkf]
      exact ih

theorem getVal_projectRow_mem (cols : List String)
    (r : List (String × Val)) (c : String) (v : Val)
    (h : getVal (projectRow cols r) c = some v) : c ∈ cols := by
  unfold getVal at h
  cases hfind : (projectRow cols r).find? (fun p => p.1 == c) with
  | none => rw [hfind] at h; simp at h
  | some p =>
    have hpmem := List.mem_of_find?_eq_some hfind
    have hpeq := List.find?_some hfind
    unfold projectRow at hpmem
    obtain ⟨c0, hc0, hp0⟩ := List.mem_map.mp hpmem
    subst hp0
    have hc : c0 = c := by simpa using hpeq
    exact hc ▸ hc0

/-- C5: for every input frame on which the Normalizer succeeds, every
output row has a category label among the eight fixed codes, and no cell
of a numeric column of the output is missing (every missing numeric value
has been replaced by zero) — numeric meaning the column parsed to a
numeric dtype, which pandas fixes over all input rows before the position
filter runs. -/
theorem normalizer_output_invariant (df out : DataFrame)
    (hout : filter_and_prepare_data df = Except.ok out) :
    ∀ r ∈ out.rows,
      (∃ s, getVal r "position_group" = some (Val.vstr s) ∧
        s ∈ position_groups) ∧
      (∀ c, isNumericCol (project df) c = true → getVal r c ≠ some Val.vnan) := by
  unfold filter_and_prepare_data at hout
  by_cases hpg : ((project df).cols.contains "position_group") = true
  case neg => rw [if_neg hpg] at hout; exact Except.noConfusion hout
  case pos =>
  rw [if_pos hpg] at hout
  injection hout with hout
  subst hout
  intro r hr
  simp only [List.mem_map] at hr
  obtain ⟨r0, hr0, rfl⟩ := hr
  have hr0f : r0 ∈ (project df).rows.filter rowInGroups := hr0
  have hgrp : rowInGroups r0 = true := (List.mem_filter.mp hr0f).2
  have hr0p : r0 ∈ (project df).rows := (List.mem_filter.mp hr0f).1
  constructor
  · cases hg : getVal r0 "position_group" with
    | none => rw [rowInGroups, hg] at hgrp; exact Bool.noConfusion hgrp
    | some v =>
      cases v with
      | vstr s =>
        refine ⟨s, ?_, ?_⟩
        · rw [getVal_fillnaRow, hg]
          simp [fillFix]
        · rw [rowInGroups, hg] at hgrp
          simpa using hgrp
      | vnum q => rw [rowInGroups, hg] at hgrp; exact Bool.noConfusion hgrp
      | vnan => rw [rowInGroups, hg] at hgrp; exact Bool.noConfusion hgrp
  · intro c hnum hcon
    rw [getVal_fillnaRow] at hcon
    obtain ⟨v0, hv0, hfv0⟩ := Option.map_eq_some.mp hcon
    by_cases hmem : ((numericCols (project df)).contains c) = true
    · unfold fillFix at hfv0
      rw [if_pos hmem] at hfv0
      by_cases hv : v0 = Val.vnan
      · rw [if_pos hv] at hfv0
        exact Val.noConfusion hfv0
      · rw [if_neg hv] at hfv0
        exact hv hfv0
    · have hcin : c ∈ (project df).cols := by
        obtain ⟨r1, hmem1, hr1p⟩ := List.mem_map.mp hr0p
        subst hr1p
        exact getVal_projectRow_mem (available_cols df) r1 c v0 hv0
      have hcmem : c ∈ numericCols (project df) :=
        List.mem_filter.mpr ⟨hcin, hnum⟩
      exact hmem (by simpa using hcmem)

/-- The output frame produced by the Normalizer on exDf: the KICKER row is
dropped, position_group stays a string column, and the NaN in the
passing_yards column — numeric at parse time, both its cells being NaN or
a number — becomes 0. -/
def exOut : DataFrame :=
  ⟨["position_group", "passing_yards"],
   [[("position_group", Val.vstr "QB"), ("passing_yards", Val.vnum 0)]]⟩

/-- The single output row of the Normalizer on exDf. -/
def exRow : List (String × Val) :=
  [("position_group", Val.vstr "QB"), ("passing_yards", Val.vnum 0)]

/-- C5 witness: the invariant instantiated on exDf. -/
theorem normalizer_output_invariant_witness :
    filter_and_prepare_data exDf = Except.ok exOut ∧
      (∃ s, getVal exRow "position_group" = some (Val.vstr s) ∧
        s ∈ position_groups) ∧
      getVal exRow "passing_yards" ≠ some Val.vnan := by
  have hok : filter_and_prepare_data exDf = Except.ok exOut := by rfl
  have h := normalizer_output_invariant exDf exOut hok exRow (by decide)
  exact ⟨hok, h.1, h.2 "passing_yards" (by decide)⟩

/-- A frame whose passing_yards column holds a string only in the KICKER
row that the position filter drops: the column is object dtype at parse
time, so select_dtypes excludes it. -/
def exDfObj : DataFrame :=
  ⟨["position_group", "passing_yards"],
   [[("position_group", Val.vstr "QB"), ("passing_yards", Val.vnan)],
    [("position_group", Val.vstr "KICKER"), ("passing_yards", Val.vstr "x")]]⟩

/-- Dtype is fixed before the row filter: on exDfObj the surviving QB row
keeps its NaN in passing_yards, exactly as the program does — the column
was made object dtype by the string in the dropped row, so fillna never
touches it. -/
theorem filter_and_prepare_data_object_col_keeps_nan :
    filter_and_prepare_data exDfObj =
      Except.ok ⟨["position_group", "passing_yards"],
        [[("position_group", Val.vstr "QB"), ("passing_yards", Val.vnan)]]⟩ := by
  rfl

end PlayoffLeague
